import Mathlib

/-!
Shallow embedding of the HiveLife simulation core (repository `AI_LIFE`):
the `World` resource grid (src/hive_game/hive/world.py), the `Blob` agent
state machine (src/hive_game/hive/blob.py), the convergence metric
(src/hive_game/hive/hive_mind.py) and the Coordinator tick loop
(src/hive_game/hive/game_window.py), with the configuration constants of
src/hive_game/hive/config.py.

Conventions of the embedding:
* Python ints are `Int`/`Nat`; Python floats are `Rat` (every float literal
  in the source is exactly representable or the behaviour proved is robust
  to the representation, see the individual comments).
* Python `int(x)` truncates toward zero; embedded as `pyInt`.
* Python `//` is floor division; embedded as `Int.fdiv`.
* Python dicts are insertion-ordered association lists.
* Fallible operations (Python code that raises) return `Except String`.
* Randomness (`random.random`, `random.choice`, `random.uniform`) is an
  explicit input (`Rnd`).
-/

deriving instance DecidableEq for Except

namespace HiveLife

/-- Python `int(q)`: truncation toward zero. -/
def pyInt (q : ℚ) : ℤ := if q < 0 then q.ceil else q.floor

/-- Python `a // b` on ints: floor division. -/
def pyFloorDiv (a b : ℤ) : ℤ := Int.fdiv a b

/-- `_clamp(value, low, high)` from blob.py: `max(low, min(value, high))`. -/
def pyClamp (v lo hi : ℤ) : ℤ := max lo (min v hi)

/-! ## config.py -/

namespace config

def TICK_RATE_HZ : ℤ := 60
def WINDOW_WIDTH : ℤ := 600
def WINDOW_HEIGHT : ℤ := 600
def BLOB_COUNT : ℕ := 75
def BLOB_SIZE : ℤ := 8
def BLOB_MAX_NEEDS : ℤ := 255
def HUNGER_RATE : ℚ := 1
def THIRST_RATE : ℚ := 1
def FOOD_FILL : ℤ := 120
def WATER_FILL : ℤ := 120
def INITIAL_FOOD_COUNT : ℕ := 160
def INITIAL_WATER_COUNT : ℕ := 160
def RESOURCE_REGEN_INTERVAL_S : ℚ := 5
def GRID_STEP : ℤ := 2
def WANDER_RATE : ℚ := 3 / 20
def HUNGER_SEEK : ℤ := 100
def THIRST_SEEK : ℤ := 100
def MEMORY_SPAN_S : ℚ := 60
def SEEK_SPEED : ℤ := GRID_STEP
def CHIRP_RADIUS : ℤ := 32
def CHIRP_VOLUME : ℕ := 50
def LEXICON_DECAY : ℚ := 1 / 100
def CONVERGENCE_INTERVAL : ℤ := 5000
def ENERGY_MAX : ℤ := 300
def REPRO_ENERGY_THRESH : ℤ := 150
def REPRO_ENERGY_COST : ℤ := 50
def REPRO_COOLDOWN_S : ℚ := 15
def MAX_BLOBS : ℕ := 500
def REPRO_NEARBY_RADIUS : ℚ := 32
def REPRO_HUNGER_THRESH : ℤ := 100
def REPRO_THIRST_THRESH : ℤ := 100
/-- config.py binds `ENERGY_DECAY` twice (0.5 at line 22, then 0.15 at
line 61); the later binding wins, as in Python module execution. -/
def ENERGY_DECAY : ℚ := 3 / 20
def EXHAUSTION_GRACE : ℚ := 60
def MAX_LIFESPAN_S : ℚ := 900

end config

/-- config.py defines no attribute `ENERGY_GAIN_ON_CONSUME`, yet
blob.py lines 138 and 145 read `config.ENERGY_GAIN_ON_CONSUME`; in Python
that lookup raises. -/
def energyGainAttrError : String :=
  "AttributeError: module hive_game.hive.config has no attribute ENERGY_GAIN_ON_CONSUME"

/-- world.py defines no method `tick_regen`, yet game_window.py lines 196
and 235 call `self.world.tick_regen()`; in Python that lookup raises. -/
def tickRegenAttrError : String :=
  "AttributeError: World object has no attribute tick_regen"

/-! ## world.py -/

/-- `ResourceType` enum from world.py. -/
inductive ResourceType where
  | EMPTY
  | FOOD
  | WATER
deriving DecidableEq, Repr

/-- `World`: tiles is the dict mapping grid-aligned coordinates to resource
types, as an insertion-ordered association list (absence means EMPTY). -/
structure World where
  width : ℤ
  height : ℤ
  tiles : List ((ℤ × ℤ) × ResourceType)
deriving DecidableEq, Repr

/-- `World.get_tile(x, y)`: align the pixel coordinate down to the grid and
look it up; missing keys are EMPTY. -/
def World.get_tile (w : World) (x y : ℤ) : ResourceType :=
  let gx := pyFloorDiv x config.GRID_STEP * config.GRID_STEP
  let gy := pyFloorDiv y config.GRID_STEP * config.GRID_STEP
  match w.tiles.find? (fun e => e.1 = (gx, gy)) with
  | some e => e.2
  | none => ResourceType.EMPTY

/-- `World.consume_tile(x, y)`: delete the aligned key if present. -/
def World.consume_tile (w : World) (x y : ℤ) : World :=
  let gx := pyFloorDiv x config.GRID_STEP * config.GRID_STEP
  let gy := pyFloorDiv y config.GRID_STEP * config.GRID_STEP
  { w with tiles := w.tiles.filter (fun e => ¬(e.1 = (gx, gy))) }

/-- `World.tile_is_food(x, y)`. -/
def World.tile_is_food (w : World) (x y : ℤ) : Bool :=
  w.get_tile x y = ResourceType.FOOD

/-- `World.tile_is_water(x, y)`. -/
def World.tile_is_water (w : World) (x y : ℤ) : Bool :=
  w.get_tile x y = ResourceType.WATER

/-! ## blob.py: data model

The lexicon `Dict[int, Dict[str, float]]` is embedded as an
insertion-ordered association list, mirroring Python dict semantics
(lookup by key, in-place overwrite keeps position, fresh keys append). -/

/-- One symbol's concept→weight table. -/
abbrev ConceptWeights := List (String × ℚ)

/-- The agent lexicon: chirp-symbol id → concept weights. -/
abbrev Lexicon := List (ℕ × ConceptWeights)

/-- `concepts.get(concept, 0.0)`. -/
def cwGet (cw : ConceptWeights) (concept : String) : ℚ :=
  match cw.find? (fun e => e.1 = concept) with
  | some e => e.2
  | none => 0

/-- `concepts[concept] = v`: overwrite in place, or append a fresh key. -/
def cwSet (cw : ConceptWeights) (concept : String) (v : ℚ) : ConceptWeights :=
  if cw.any (fun e => e.1 = concept) then
    cw.map (fun e => if e.1 = concept then (concept, v) else e)
  else cw ++ [(concept, v)]

/-- `lexicon.setdefault(chirp_id, {})` followed by reading `[concept]`
with default 0.0 (used by the reinforcement steps). -/
def lexGet (lex : Lexicon) (chirpId : ℕ) (concept : String) : ℚ :=
  match lex.find? (fun e => e.1 = chirpId) with
  | some e => cwGet e.2 concept
  | none => 0

/-- `lexicon.setdefault(chirp_id, {})[concept] = v`. -/
def lexSet (lex : Lexicon) (chirpId : ℕ) (concept : String) (v : ℚ) : Lexicon :=
  if lex.any (fun e => e.1 = chirpId) then
    lex.map (fun e => if e.1 = chirpId then (chirpId, cwSet e.2 concept v) else e)
  else lex ++ [(chirpId, [(concept, v)])]

/-- A chirp event `("chirp", emitter_id, chirp_id, x, y)` — the only event
kind the source ever appends to the per-tick queue. -/
inductive PyEvent where
  | chirp (emitterId : ℕ) (chirpId : ℕ) (x y : ℤ)
deriving DecidableEq, Repr

/-- The `Blob` dataclass fields (rendering-only `color` included for
completeness; `game_window_ref` is replaced by explicit environment
arguments to the methods that used it). -/
structure Blob where
  id : ℕ
  wander_propensity : ℚ := config.WANDER_RATE
  x : ℤ := 0
  y : ℤ := 0
  vx : ℤ := 0
  vy : ℤ := 0
  color : ℤ × ℤ × ℤ := (255, 0, 0)
  hunger : ℤ := 0
  thirst : ℤ := 0
  energy : ℤ := 100
  alive : Bool := true
  last_food_pos : Option (ℤ × ℤ) := none
  last_water_pos : Option (ℤ × ℤ) := none
  food_mem_age : ℚ := 0
  water_mem_age : ℚ := 0
  last_repro_tick : ℤ := -(pyInt (config.REPRO_COOLDOWN_S * (config.TICK_RATE_HZ : ℚ)))
  lexicon : Lexicon := []
  heard_chirps_pending_reinforcement : List (ℕ × String × ℤ) := []
  last_chirp_time : ℚ := -1
  last_emit_tick : ℤ := 0
  last_emit_concept : Option String := none
deriving DecidableEq, Repr

/-- `_chirp_cooldown` (dataclass default 0.5 seconds). -/
def Blob.chirp_cooldown : ℚ := 1 / 2

/-- `_reinforcement_delay_ticks` (dataclass default 180). -/
def Blob.reinforcement_delay_ticks : ℤ := 180

/-- `_hunger_rate_tick = HUNGER_RATE / TICK_RATE_HZ`. -/
def Blob.hunger_rate_tick : ℚ := config.HUNGER_RATE / (config.TICK_RATE_HZ : ℚ)

/-- `_thirst_rate_tick = THIRST_RATE / TICK_RATE_HZ`. -/
def Blob.thirst_rate_tick : ℚ := config.THIRST_RATE / (config.TICK_RATE_HZ : ℚ)

/-- `_energy_decay_tick = ENERGY_DECAY / TICK_RATE_HZ`. -/
def Blob.energy_decay_tick : ℚ := config.ENERGY_DECAY / (config.TICK_RATE_HZ : ℚ)

/-! ## blob.py: methods -/

/-- The random draws one call to `Blob.update` can consume: the wander
roll `random.random()`, the two `random.choice([-GRID_STEP, 0, GRID_STEP])`
picks, and the reproduction mutation factor
`1.0 + random.uniform(-0.05, 0.05)`. -/
structure Rnd where
  roll : ℚ
  cvx : Fin 3
  cvy : Fin 3
  mutF : ℚ
deriving DecidableEq, Repr

/-- `random.choice([-config.GRID_STEP, 0, config.GRID_STEP])`. -/
def choiceToStep : Fin 3 → ℤ
  | 0 => -config.GRID_STEP
  | 1 => 0
  | 2 => config.GRID_STEP

/-- `Blob._wander`: with probability `wander_propensity` re-roll both
velocity components; otherwise keep them. -/
def Blob.wander (b : Blob) (rnd : Rnd) : Blob :=
  if rnd.roll < b.wander_propensity then
    { b with vx := choiceToStep rnd.cvx, vy := choiceToStep rnd.cvy }
  else b

/-- `Blob._get_dominant_chirp_for_concept`: linear scan keeping the first
strictly-greatest weight above the 0.5 threshold. -/
def Blob.get_dominant_chirp_for_concept (lex : Lexicon) (concept : String) : Option ℕ :=
  (lex.foldl
    (fun acc e =>
      let weight := cwGet e.2 concept
      if acc.2 < weight then (some e.1, weight) else acc)
    ((none : Option ℕ), (1 / 2 : ℚ))).1

/-- The Coordinator's chirp-id state: the not-yet-drawn tail of the
pre-shuffled pool (`_chirp_id_iterator`) and `used_chirp_ids`. -/
structure ChirpPool where
  pool : List ℕ
  used : List ℕ
deriving DecidableEq, Repr

/-- The draw loop of `GameWindow.get_new_chirp_id`: advance the iterator,
skipping ids already in `used_chirp_ids`. -/
def getNewChirpIdAux : List ℕ → List ℕ → Option ℕ × ChirpPool
  | [], used => (none, ⟨[], used⟩)
  | newId :: rest, used =>
    if newId ∈ used then getNewChirpIdAux rest used
    else (some newId, ⟨rest, newId :: used⟩)

/-- `GameWindow.get_new_chirp_id`: draw from the iterator, skipping ids
already in `used_chirp_ids`; `None` on exhaustion. -/
def ChirpPool.get_new_chirp_id (p : ChirpPool) : Option ℕ × ChirpPool :=
  getNewChirpIdAux p.pool p.used

/-- `Blob._allocate_new_chirp_id`: request an id from the Coordinator and,
if one is available, seed the lexicon entry at weight 0.2. -/
def Blob.allocate_new_chirp_id (b : Blob) (concept : String) (p : ChirpPool) :
    Option ℕ × Blob × ChirpPool :=
  match p.get_new_chirp_id with
  | (some newId, p') =>
    (some newId, { b with lexicon := lexSet b.lexicon newId concept (1 / 5) }, p')
  | (none, p') => (none, b, p')

/-- `sum(1 for event in events if event[0] == "chirp")`. -/
def chirpEventCount (events : List PyEvent) : ℕ :=
  events.countP (fun e => match e with | .chirp _ _ _ _ => true)

/-- `Blob._broadcast_discovery`: per-agent cooldown gate, dominant-symbol
lookup with fallback allocation, then the global CHIRP_VOLUME gate and, on
success, the event append plus `last_chirp_time`/`last_emit_*` updates
(the `sound.play_chirp` call is a pure side effect on the excluded audio
collaborator and has no embedded state). -/
def Blob.broadcast_discovery (b : Blob) (concept : String) (current_tick : ℤ)
    (events : List PyEvent) (p : ChirpPool) : Blob × List PyEvent × ChirpPool :=
  let current_time : ℚ := (current_tick : ℚ) / (config.TICK_RATE_HZ : ℚ)
  if current_time - b.last_chirp_time < Blob.chirp_cooldown then (b, events, p)
  else
    let (chirpId?, b1, p1) :=
      match Blob.get_dominant_chirp_for_concept b.lexicon concept with
      | some cid => (some cid, b, p)
      | none => b.allocate_new_chirp_id concept p
    match chirpId? with
    | none => (b1, events, p1)
    | some cid =>
      if chirpEventCount events < config.CHIRP_VOLUME then
        ({ b1 with
            last_chirp_time := current_time
            last_emit_tick := current_tick
            last_emit_concept := some concept },
         events ++ [PyEvent.chirp b1.id cid b1.x b1.y], p1)
      else (b1, events, p1)

/-- The listener's concept guess in `_process_heard_chirps`, derived from
its own current needs. -/
def Blob.conceptGuess (b : Blob) : Option String :=
  let is_hungry := b.hunger ≥ config.HUNGER_SEEK
  let is_thirsty := b.thirst ≥ config.THIRST_SEEK
  if is_hungry ∧ is_thirsty then
    some (if b.hunger ≥ b.thirst then "food" else "water")
  else if is_hungry then some "food"
  else if is_thirsty then some "water"
  else none

/-- `Blob._process_heard_chirps`: for every chirp event not emitted by
self and heard within CHIRP_RADIUS, append a pending reinforcement with
expiry `current_tick + _reinforcement_delay_ticks`.  The source compares
`math.hypot(dx, dy) < CHIRP_RADIUS`; with integer coordinates this is
exactly `dx² + dy² < CHIRP_RADIUS²`, which is how it is embedded. -/
def Blob.process_heard_chirps (b : Blob) (events : List PyEvent) (current_tick : ℤ) : Blob :=
  { b with heard_chirps_pending_reinforcement :=
      b.heard_chirps_pending_reinforcement ++
        events.filterMap (fun e =>
          match e with
          | .chirp emitterId chirpId x y =>
            if emitterId = b.id then none
            else if (b.x - x) ^ 2 + (b.y - y) ^ 2 < config.CHIRP_RADIUS ^ 2 then
              match b.conceptGuess with
              | some guess => some (chirpId, guess, current_tick + Blob.reinforcement_delay_ticks)
              | none => none
            else none) }

/-- `Blob._apply_positive_reinforcement`: every pending entry whose guess
matches the consumed concept bumps that symbol/concept weight by +0.2
(capped at 1.0) and is removed; the scan is sequential, so repeated
matches compound. -/
def Blob.apply_positive_reinforcement (b : Blob) (consumed_concept : String) : Blob :=
  let r := b.heard_chirps_pending_reinforcement.foldl
    (fun (acc : Lexicon × List (ℕ × String × ℤ)) e =>
      if e.2.1 = consumed_concept then
        (lexSet acc.1 e.1 e.2.1 (min 1 (lexGet acc.1 e.1 e.2.1 + 1 / 5)), acc.2)
      else (acc.1, acc.2 ++ [e]))
    (b.lexicon, [])
  { b with lexicon := r.1, heard_chirps_pending_reinforcement := r.2 }

/-- `Blob._process_reinforcement_queue`: every pending entry whose expiry
tick has arrived drops that symbol/concept weight by 0.05 (floored at 0)
and is removed. -/
def Blob.process_reinforcement_queue (b : Blob) (current_tick : ℤ) : Blob :=
  let r := b.heard_chirps_pending_reinforcement.foldl
    (fun (acc : Lexicon × List (ℕ × String × ℤ)) e =>
      if current_tick ≥ e.2.2 then
        (lexSet acc.1 e.1 e.2.1 (max 0 (lexGet acc.1 e.1 e.2.1 - 1 / 20)), acc.2)
      else (acc.1, acc.2 ++ [e]))
    (b.lexicon, [])
  { b with lexicon := r.1, heard_chirps_pending_reinforcement := r.2 }

/-- `Blob._decay_lexicon`: multiply every weight by
`1 - LEXICON_DECAY·dt`, prune weights below 0.001, prune symbols left
with no concepts. -/
def Blob.decay_lexicon (b : Blob) (dt : ℚ) : Blob :=
  let decay_factor := 1 - config.LEXICON_DECAY * dt
  { b with lexicon :=
      ((b.lexicon.map (fun e =>
          (e.1, (e.2.map (fun cw => (cw.1, cw.2 * decay_factor))).filter
            (fun cw => ¬(cw.2 < 1 / 1000)))))
        |>.filter (fun e => ¬e.2.isEmpty)) }

/-- `Blob._decay_mem`: age each memory by `dt`; invalidate it when the age
exceeds MEMORY_SPAN_S or the remembered tile no longer holds the expected
resource. -/
def Blob.decay_mem (b : Blob) (dt : ℚ) (w : World) : Blob :=
  let b1 :=
    match b.last_food_pos with
    | some pos =>
      let age := b.food_mem_age + dt
      if age > config.MEMORY_SPAN_S ∨ ¬w.tile_is_food pos.1 pos.2 then
        { b with last_food_pos := none, food_mem_age := 0 }
      else { b with food_mem_age := age }
    | none => b
  match b1.last_water_pos with
  | some pos =>
    let age := b1.water_mem_age + dt
    if age > config.MEMORY_SPAN_S ∨ ¬w.tile_is_water pos.1 pos.2 then
      { b1 with last_water_pos := none, water_mem_age := 0 }
    else { b1 with water_mem_age := age }
  | none => b1

/-- `Blob._decide_target`: seek the remembered resource of the
sufficiently-large need; with both needs active the larger need wins and
`hunger >= thirst` breaks ties toward food. -/
def Blob.decide_target (b : Blob) : Option (ℤ × ℤ) :=
  let need_food := b.hunger ≥ config.HUNGER_SEEK ∧ b.last_food_pos.isSome
  let need_water := b.thirst ≥ config.THIRST_SEEK ∧ b.last_water_pos.isSome
  if need_food ∧ need_water then
    if b.hunger ≥ b.thirst then b.last_food_pos else b.last_water_pos
  else if need_food then b.last_food_pos
  else if need_water then b.last_water_pos
  else none

/-! ## blob.py: reproduction -/

/-- `int(REPRO_COOLDOWN_S * TICK_RATE_HZ)` as computed in
`can_reproduce`. -/
def reproCooldownTicks : ℤ := pyInt (config.REPRO_COOLDOWN_S * (config.TICK_RATE_HZ : ℚ))

/-- `Blob.can_reproduce(current_tick)`: state thresholds, cooldown, and
the population cap read through `game_window_ref.blobs`
(`population = len(game_window_ref.blobs)` at the time of the check). -/
def Blob.can_reproduce (b : Blob) (current_tick : ℤ) (population : ℕ) : Bool :=
  if ¬b.alive then false
  else if b.hunger ≥ config.REPRO_HUNGER_THRESH then false
  else if b.thirst ≥ config.REPRO_THIRST_THRESH then false
  else if b.energy < config.REPRO_ENERGY_THRESH then false
  else if current_tick - b.last_repro_tick < reproCooldownTicks then false
  else if population ≥ config.MAX_BLOBS then false
  else true

/-- `Blob.find_mate`: first blob of `get_nearby_blobs(self, radius)`
satisfying the need/energy thresholds (the caller re-checks the mate's
cooldown). -/
def Blob.find_mate (nearby : List Blob) : Option Blob :=
  nearby.find? (fun m =>
    m.alive ∧ m.hunger < config.REPRO_HUNGER_THRESH ∧
      m.thirst < config.REPRO_THIRST_THRESH ∧ m.energy ≥ config.REPRO_ENERGY_THRESH)

/-- `Blob.reproduce_with(mate, current_tick)`: deduct the energy cost from
both parents, reset both cooldowns, and build the offspring (fresh id from
the Coordinator, grid-snapped midpoint position, averaged color, mutated
`wander_propensity`, hard-coded initial energy 100 / hunger 0 / thirst 0,
cooldown started at the birth tick).  Returns (self, mate, offspring);
handing the offspring to `add_blob` is the Coordinator's step. -/
def Blob.reproduce_with (b mate : Blob) (current_tick : ℤ) (offspring_id : ℕ)
    (mutation_factor : ℚ) : Blob × Blob × Blob :=
  let self' := { b with energy := b.energy - config.REPRO_ENERGY_COST,
                        last_repro_tick := current_tick }
  let mate' := { mate with energy := mate.energy - config.REPRO_ENERGY_COST,
                           last_repro_tick := current_tick }
  let offspring_x := pyFloorDiv (pyFloorDiv (b.x + mate.x) 2) config.GRID_STEP * config.GRID_STEP
  let offspring_y := pyFloorDiv (pyFloorDiv (b.y + mate.y) 2) config.GRID_STEP * config.GRID_STEP
  let offspring_color := (pyFloorDiv (b.color.1 + mate.color.1) 2,
                          pyFloorDiv (b.color.2.1 + mate.color.2.1) 2,
                          pyFloorDiv (b.color.2.2 + mate.color.2.2) 2)
  let avg_wander := (b.wander_propensity + mate.wander_propensity) / 2
  let offspring_wander := max (1 / 100) (avg_wander * mutation_factor)
  let offspring : Blob :=
    { id := offspring_id
      x := offspring_x
      y := offspring_y
      color := offspring_color
      wander_propensity := offspring_wander
      energy := 100
      hunger := 0
      thirst := 0
      last_repro_tick := current_tick }
  (self', mate', offspring)

/-! ## blob.py: the per-tick update -/

/-- The Coordinator responses one `Blob.update` call can consume:
`len(game_window_ref.blobs)`, the `get_nearby_blobs` result, and the next
blob id. -/
structure ReproEnv where
  population : ℕ
  nearby : List Blob
  nextBlobId : ℕ
deriving Repr

/-- Everything `Blob.update` can have changed when it returns normally:
the acting blob, the world, the event queue, the mutated mate (replaced in
the Coordinator's list by object identity, embedded as id), the offspring
handed to `add_blob`, the chirp pool, and whether `get_next_blob_id` was
consumed. -/
structure UpdateOut where
  self : Blob
  world : World
  events : List PyEvent
  mate : Option Blob
  offspring : Option Blob
  pool : ChirpPool
  idUsed : Bool
deriving DecidableEq, Repr

/-- The reproduction block of `Blob.update` (lines 107–114). -/
def Blob.reproStep (b : Blob) (current_tick : ℤ) (env : ReproEnv) (rnd : Rnd) :
    Blob × Option Blob × Option Blob × Bool :=
  if b.can_reproduce current_tick env.population then
    match Blob.find_mate env.nearby with
    | some mate =>
      if mate.can_reproduce current_tick env.population then
        let r := b.reproduce_with mate current_tick env.nextBlobId rnd.mutF
        (r.1, some r.2.1, some r.2.2, true)
      else (b, none, none, false)
    | none => (b, none, none, false)
  else (b, none, none, false)

/-- The movement block of `Blob.update` (lines 156–187): seek the target
axis-independently clamped to SEEK_SPEED (snapping onto the target when
within reach), or wander; then integrate velocity, clamp to the world
bounds, and snap down to the grid. -/
def Blob.movementStep (b : Blob) (w : World) (rnd : Rnd) : Blob :=
  let bv :=
    match b.decide_target with
    | some t =>
      let delta_x := t.1 - b.x
      let delta_y := t.2 - b.y
      let vx0 := pyClamp delta_x (-config.SEEK_SPEED) config.SEEK_SPEED
      let vy0 := pyClamp delta_y (-config.SEEK_SPEED) config.SEEK_SPEED
      { b with vx := if |delta_x| ≤ config.SEEK_SPEED then delta_x else vx0,
               vy := if |delta_y| ≤ config.SEEK_SPEED then delta_y else vy0 }
    | none => b.wander rnd
  let x1 := pyClamp (bv.x + bv.vx) 0 (w.width - config.BLOB_SIZE)
  let y1 := pyClamp (bv.y + bv.vy) 0 (w.height - config.BLOB_SIZE)
  { bv with x := pyFloorDiv x1 config.GRID_STEP * config.GRID_STEP,
            y := pyFloorDiv y1 config.GRID_STEP * config.GRID_STEP }

/-- `Blob.update(world, dt, current_tick, events)`.  Mirrors the source
step order: liveness guard, chirp intake, reinforcement expiry, lexicon
decay, memory decay, reproduction, needs update with `int()` truncation
and non-negative floor, starvation/dehydration check, resource
consumption, reinforcement + broadcast, movement.  The consumption branch
raises in the source (config.ENERGY_GAIN_ON_CONSUME does not exist), so
it returns `Except.error`; the steps after it are embedded for the
remaining (EMPTY-tile) path. -/
def Blob.update (b : Blob) (w : World) (dt : ℚ) (current_tick : ℤ)
    (events : List PyEvent) (env : ReproEnv) (p : ChirpPool) (rnd : Rnd) :
    Except String UpdateOut :=
  if ¬b.alive then .ok ⟨b, w, events, none, none, p, false⟩
  else
    let b1 := b.process_heard_chirps events current_tick
    let b2 := b1.process_reinforcement_queue current_tick
    let b3 := b2.decay_lexicon dt
    let b4 := b3.decay_mem dt w
    let (b5, mateOut, offspringOut, idUsed) := b4.reproStep current_tick env rnd
    let b6 := { b5 with
      hunger := max 0 (pyInt ((b5.hunger : ℚ) + Blob.hunger_rate_tick)),
      thirst := max 0 (pyInt ((b5.thirst : ℚ) + Blob.thirst_rate_tick)),
      energy := max 0 (pyInt ((b5.energy : ℚ) - Blob.energy_decay_tick)) }
    if b6.hunger ≥ config.BLOB_MAX_NEEDS ∨ b6.thirst ≥ config.BLOB_MAX_NEEDS then
      .ok ⟨{ b6 with alive := false }, w, events, mateOut, offspringOut, p, idUsed⟩
    else
      match w.get_tile b6.x b6.y with
      | ResourceType.FOOD =>
        -- `hunger` is reduced by FOOD_FILL, then the read of
        -- config.ENERGY_GAIN_ON_CONSUME raises and aborts the update.
        .error energyGainAttrError
      | ResourceType.WATER =>
        .error energyGainAttrError
      | ResourceType.EMPTY =>
        let b7 := b6.movementStep w rnd
        .ok ⟨b7, w, events, mateOut, offspringOut, p, idUsed⟩

/-! ## hive_mind.py -/

/-- `calculate_jaccard_similarity(set1, set2)`: `|A∩B| / |A∪B|`, with 1.0
when both sets are empty. -/
def calculate_jaccard_similarity (s1 s2 : Finset ℕ) : ℚ :=
  if (s1 ∪ s2).card = 0 then 1
  else ((s1 ∩ s2).card : ℚ) / ((s1 ∪ s2).card : ℚ)

/-- The per-blob dominant symbol set for one concept built by
`update_convergence`: symbols whose weight for the concept meets the
threshold. -/
def dominantSet (lex : Lexicon) (concept : String) (threshold : ℚ) : Finset ℕ :=
  ((lex.filter (fun e => threshold ≤ cwGet e.2 concept)).map (fun e => e.1)).toFinset

/-- The unordered index pairs visited by the nested
`for i in range(n): for j in range(i+1, n)` loops, as element pairs. -/
def offDiagPairs : List α → List (α × α)
  | [] => []
  | x :: xs => xs.map (fun y => (x, y)) ++ offDiagPairs xs

/-- `update_convergence(blobs, current_tick, interval, dominant_threshold)`.
Only the lexicons of the blobs matter, so the argument is the list of
lexicons.  Returns `none` ("not computed") when the blob list is empty or
the tick is off the interval. -/
def update_convergence (lexicons : List Lexicon) (current_tick interval : ℤ)
    (dominant_threshold : ℚ) : Option ℚ :=
  if lexicons.isEmpty ∨ current_tick % interval ≠ 0 then none
  else
    let foods := lexicons.map (fun lex => dominantSet lex "food" dominant_threshold)
    let waters := lexicons.map (fun lex => dominantSet lex "water" dominant_threshold)
    let num_blobs := lexicons.length
    if num_blobs < 2 then
      some ((1 + 1) / 2)
    else
      let pairsF := offDiagPairs foods
      let pairsW := offDiagPairs waters
      let total_jaccard_food := (pairsF.map (fun q => calculate_jaccard_similarity q.1 q.2)).sum
      let total_jaccard_water := (pairsW.map (fun q => calculate_jaccard_similarity q.1 q.2)).sum
      let pair_count := pairsF.length
      let avg_food := if 0 < pair_count then total_jaccard_food / (pair_count : ℚ) else 1
      let avg_water := if 0 < pair_count then total_jaccard_water / (pair_count : ℚ) else 1
      some ((avg_food + avg_water) / 2)

/-- Modelled from the spec: the sum of `g i j` over all unordered index
pairs `i < j < n`, written with nested `Finset.range` sums (this is the
spec-side formulation compared against the implementation's list loop). -/
def pairSum (g : ℕ → ℕ → ℚ) (n : ℕ) : ℚ :=
  ∑ j ∈ Finset.range n, ∑ i ∈ Finset.range j, g i j

/-- Modelled from the spec (§4.4): mean over all unordered agent pairs of
the average of the food-set and water-set Jaccard similarities; 1.0 with
fewer than 2 agents. -/
def convergenceSpec (lexicons : List Lexicon) (dominant_threshold : ℚ) : ℚ :=
  let n := lexicons.length
  let fset := fun i => dominantSet (lexicons.getD i []) "food" dominant_threshold
  let wset := fun i => dominantSet (lexicons.getD i []) "water" dominant_threshold
  if n < 2 then 1
  else
    pairSum (fun i j =>
        (calculate_jaccard_similarity (fset i) (fset j) +
          calculate_jaccard_similarity (wset i) (wset j)) / 2) n /
      ((n : ℚ) * ((n : ℚ) - 1) / 2)

/-! ## game_window.py: the Coordinator -/

/-- The Coordinator state relevant to the core: tick counter, world, blob
list, per-tick event queue, chirp-id pool, blob-id counter, convergence
log. -/
structure GWState where
  current_tick : ℤ
  world : World
  blobs : List Blob
  events : List PyEvent
  pool : ChirpPool
  next_blob_id : ℕ
  convergence_log : List (ℤ × ℚ)
deriving DecidableEq, Repr

/-- `GameWindow.add_blob(blob)`: append only while the population is
strictly below MAX_BLOBS; otherwise the offspring is silently dropped. -/
def GWState.add_blob (s : GWState) (b : Blob) : GWState :=
  if s.blobs.length < config.MAX_BLOBS then { s with blobs := s.blobs ++ [b] }
  else s

/-- `GameWindow.get_nearby_blobs(center_blob, radius)`: all other living
blobs within the Euclidean radius (`math.hypot(dx, dy) <= radius` is
embedded as the exact squared comparison). -/
def GWState.get_nearby_blobs (blobs : List Blob) (center : Blob) (radius : ℚ) : List Blob :=
  blobs.filter (fun o =>
    ¬(o.id = center.id) ∧ o.alive ∧
      (((center.x - o.x) ^ 2 + (center.y - o.y) ^ 2 : ℤ) : ℚ) ≤ radius ^ 2)

/-- `int(RESOURCE_REGEN_INTERVAL_S * TICK_RATE_HZ)` from `on_update`. -/
def regenIntervalTicks : ℤ := pyInt (config.RESOURCE_REGEN_INTERVAL_S * (config.TICK_RATE_HZ : ℚ))

/-- The agent loop of `GameWindow.on_update`: Python's `for blob in
self.blobs` iterates by index over a list that `add_blob` may extend
during the loop, so offspring appended mid-tick are visited too.  One
blob's update result is written back by index (self), by id (the mutated
mate), and through `add_blob` (the offspring).  `fuel` only bounds the
recursion; it is chosen large enough (`length + MAX_BLOBS` and `add_blob`
never growing the list past MAX_BLOBS) that it cannot run out. -/
def tickLoop (rnds : ℕ → Rnd) (dt : ℚ) : ℕ → ℕ → GWState → Except String GWState
  | 0, _, s => .ok s
  | fuel + 1, i, s =>
    if h : i < s.blobs.length then
      let b := s.blobs.get ⟨i, h⟩
      if b.alive then
        match b.update s.world dt s.current_tick s.events
            ⟨s.blobs.length, GWState.get_nearby_blobs s.blobs b config.REPRO_NEARBY_RADIUS,
              s.next_blob_id⟩ s.pool (rnds i) with
        | .error e => .error e
        | .ok out =>
          let blobs1 := s.blobs.set i out.self
          let blobs2 :=
            match out.mate with
            | some m => blobs1.map (fun o => if o.id = m.id then m else o)
            | none => blobs1
          let s1 := { s with blobs := blobs2, world := out.world, events := out.events,
                             pool := out.pool,
                             next_blob_id := if out.idUsed then s.next_blob_id + 1
                                             else s.next_blob_id }
          let s2 := match out.offspring with
                    | some o => s1.add_blob o
                    | none => s1
          tickLoop rnds dt fuel (i + 1) s2
      else tickLoop rnds dt fuel (i + 1) s
    else .ok s

/-- `GameWindow.on_update(delta_time)`: advance the tick, clear the event
queue, run the agent loop, filter dead blobs, then the periodic resource
regeneration — whose call `self.world.tick_regen()` raises because the
`World` class defines no such method — and finally the convergence
update.  (The HUD update is rendering-only and omitted.) -/
def GWState.on_update (s : GWState) (delta_time : ℚ) (rnds : ℕ → Rnd) :
    Except String GWState :=
  let s0 := { s with current_tick := s.current_tick + 1, events := [] }
  match tickLoop rnds delta_time (s0.blobs.length + config.MAX_BLOBS) 0 s0 with
  | .error e => .error e
  | .ok s1 =>
    let s2 := { s1 with blobs := s1.blobs.filter (fun b => b.alive) }
    if regenIntervalTicks > 0 ∧ s2.current_tick % regenIntervalTicks = 0 then
      .error tickRegenAttrError
    else
      match update_convergence ((s2.blobs.filter (fun b => b.alive)).map (fun b => b.lexicon))
          s2.current_tick config.CONVERGENCE_INTERVAL (3 / 5) with
      | some v => .ok { s2 with convergence_log := s2.convergence_log ++ [(s2.current_tick, v)] }
      | none => .ok s2

/-- The ways one simulation tick changes the Coordinator's blob list,
abstracted from `on_update`: writing an updated blob back at its index,
replacing the mutated mate by id (a map over the list), inserting an
offspring through `add_blob`, filtering dead blobs, and steps that leave
the list untouched (tick counter, world, events, pool, log). -/
inductive GWStep : GWState → GWState → Prop where
  | setElem (s : GWState) (i : ℕ) (b : Blob) :
      GWStep s { s with blobs := s.blobs.set i b }
  | mapElems (s : GWState) (f : Blob → Blob) :
      GWStep s { s with blobs := s.blobs.map f }
  | add (s : GWState) (b : Blob) : GWStep s (s.add_blob b)
  | filterDead (s : GWState) : GWStep s { s with blobs := s.blobs.filter (fun b => b.alive) }
  | admin (s s' : GWState) : s'.blobs = s.blobs → GWStep s s'

/-- Reachability under `GWStep`. -/
inductive GWReachable (s0 : GWState) : GWState → Prop where
  | refl : GWReachable s0 s0
  | step {s s' : GWState} : GWReachable s0 s → GWStep s s' → GWReachable s0 s'

/-! ## Concrete fixtures used by the theorems -/

/-- A world of the configured window size with no resource tiles. -/
def emptyWorld : World := ⟨config.WINDOW_WIDTH, config.WINDOW_HEIGHT, []⟩

/-- A world with a single FOOD tile at the grid cell (2, 2). -/
def foodWorld : World :=
  ⟨config.WINDOW_WIDTH, config.WINDOW_HEIGHT, [((2, 2), ResourceType.FOOD)]⟩

/-- A world with a single WATER tile at the grid cell (2, 2). -/
def waterWorld : World :=
  ⟨config.WINDOW_WIDTH, config.WINDOW_HEIGHT, [((2, 2), ResourceType.WATER)]⟩

/-- Random draws under which `_wander` keeps the current velocity
(`random.random() = 1` is never `< wander_propensity ≤ 1`). -/
def stillRnd : Rnd := ⟨1, 1, 1, 1⟩

/-- A Coordinator environment for a blob alone in the population. -/
def soloEnv : ReproEnv := ⟨1, [], 0⟩

/-- An exhausted chirp-id pool. -/
def emptyPool : ChirpPool := ⟨[], []⟩

/-- `dt` of one tick at the configured 60 Hz. -/
def tickDt : ℚ := 1 / 60

/-! ## Claims -/

unseal Rat.add Rat.mul Rat.inv Rat.sub in
/-- **C1.** The claim says no exception ever propagates out of one
simulation tick.  The code raises: `on_update` calls
`self.world.tick_regen()` every `RESOURCE_REGEN_INTERVAL_S` cadence
(tick 300) but the `World` class defines no `tick_regen` method, and the
agent loop raises `AttributeError` out of `blob.update` whenever a blob
stands on a resource tile (config.ENERGY_GAIN_ON_CONSUME does not exist).
Both aborts are exhibited on concrete states. -/
theorem claim1_tick_loop_raises :
    GWState.on_update ⟨299, emptyWorld, [], [], emptyPool, 0, []⟩ tickDt (fun _ => stillRnd) =
      Except.error tickRegenAttrError ∧
    GWState.on_update
        ⟨0, foodWorld, [{ id := 0, x := 2, y := 2, hunger := 150, thirst := 50, energy := 50 }],
          [], emptyPool, 1, []⟩ tickDt (fun _ => stillRnd) =
      Except.error energyGainAttrError := by
  constructor <;> decide

unseal Rat.add Rat.mul Rat.inv Rat.sub in
/-- **C2.** The claim says a live agent standing on FOOD has hunger
reduced, energy increased by ENERGY_GAIN_ON_CONSUME capped at ENERGY_MAX,
memory refreshed and the tile cleared (symmetrically for WATER).  In the
code the consumption branch reads `config.ENERGY_GAIN_ON_CONSUME`, which
does not exist, so `update` raises `AttributeError` instead of completing
the consumption (and the cap it would apply is written as
`BLOB_MAX_NEEDS`, not `ENERGY_MAX`). -/
theorem claim2_consumption_raises :
    Blob.update { id := 0, x := 2, y := 2, hunger := 150, thirst := 50, energy := 50 }
        foodWorld tickDt 1 [] soloEnv emptyPool stillRnd =
      Except.error energyGainAttrError ∧
    Blob.update { id := 0, x := 2, y := 2, hunger := 50, thirst := 150, energy := 50 }
        waterWorld tickDt 1 [] soloEnv emptyPool stillRnd =
      Except.error energyGainAttrError := by
  constructor <;> decide

unseal Rat.add Rat.mul Rat.inv Rat.sub in
/-- **C3.** The claim says an agent whose age reaches
`MAX_LIFESPAN_TICKS` (= int(900 · 60) = 54000) dies of old age at the
start of `update`, dropping a FOOD carcass tile.  The `Blob` dataclass has
no age field and `update` performs no lifespan check: far past the
claimed lifespan the blob survives the update unchanged in liveness and
no FOOD tile appears. -/
theorem claim3_no_old_age_death :
    pyInt (config.MAX_LIFESPAN_S * (config.TICK_RATE_HZ : ℚ)) = 54000 ∧
    (Blob.update { id := 0, hunger := 0, thirst := 0, energy := 100 }
          emptyWorld tickDt 54001 [] soloEnv emptyPool stillRnd).map
        (fun o => (o.self.alive, o.world.tiles)) =
      Except.ok (true, ([] : List ((ℤ × ℤ) × ResourceType))) := by
  constructor <;> decide

unseal Rat.add Rat.mul Rat.inv Rat.sub in
/-- **C4.** The claim's scenario: hunger 254 (MAX_NEEDS 255), no resource
underfoot, one `update` ⇒ death by starvation and a FOOD tile at the
agent's position.  In the code the needs increment `254 + 1/60` is
truncated back to 254 by `int()`, so the blob stays alive with hunger
unchanged; and even a blob that does die (entering with hunger 255) drops
no FOOD tile — the death branch only flips `alive` and returns. -/
theorem claim4_starvation_scenario_fails :
    (Blob.update { id := 0, hunger := 254, thirst := 0, energy := 100 }
          emptyWorld tickDt 1 [] soloEnv emptyPool stillRnd).map
        (fun o => (o.self.alive, o.self.hunger, o.world.tiles)) =
      Except.ok (true, 254, ([] : List ((ℤ × ℤ) × ResourceType))) ∧
    (Blob.update { id := 0, hunger := 255, thirst := 0, energy := 100 }
          emptyWorld tickDt 1 [] soloEnv emptyPool stillRnd).map
        (fun o => (o.self.alive, o.self.hunger, o.world.tiles)) =
      Except.ok (false, 255, ([] : List ((ℤ × ℤ) × ResourceType))) := by
  constructor <;> decide

unseal Rat.add Rat.mul Rat.inv Rat.sub in
/-- **C5.** The claim says repeated resource-free ticks strictly increase
hunger and thirst by `HUNGER_RATE·dt` per tick.  In the code the needs
are stored as ints and incremented by the fixed per-tick rate
`HUNGER_RATE / TICK_RATE_HZ = 1/60`, then truncated straight back by
`int()`: hunger and thirst never change (here both stay 50 after an
update, both for `dt = 1/60` and for `dt = 1`, since `dt` is not used by
the needs update at all), while energy falls by a whole unit per tick. -/
theorem claim5_needs_never_increase :
    (Blob.update { id := 0, hunger := 50, thirst := 50, energy := 50 }
          emptyWorld tickDt 1 [] soloEnv emptyPool stillRnd).map
        (fun o => (o.self.hunger, o.self.thirst, o.self.energy)) =
      Except.ok (50, 50, 49) ∧
    (Blob.update { id := 0, hunger := 50, thirst := 50, energy := 50 }
          emptyWorld 1 1 [] soloEnv emptyPool stillRnd).map
        (fun o => (o.self.hunger, o.self.thirst, o.self.energy)) =
      Except.ok (50, 50, 49) := by
  constructor <;> decide

/-- Fixture blob for the C7 witness: both needs above their seek
thresholds, hunger strictly larger, both memories present. -/
def c7blob : Blob :=
  { id := 0, hunger := 120, thirst := 110,
    last_food_pos := some (4, 4), last_water_pos := some (6, 6) }

/-- **C7.** Target selection: with both seek conditions active the memory
of the strictly larger need is chosen and equal needs choose food; with
exactly one condition active that memory is chosen; with neither, no
target (wander). -/
theorem claim7_target_selection (b : Blob) :
    ((b.hunger ≥ config.HUNGER_SEEK ∧ b.last_food_pos.isSome) →
      (b.thirst ≥ config.THIRST_SEEK ∧ b.last_water_pos.isSome) →
      (b.hunger > b.thirst → b.decide_target = b.last_food_pos) ∧
      (b.thirst > b.hunger → b.decide_target = b.last_water_pos) ∧
      (b.hunger = b.thirst → b.decide_target = b.last_food_pos)) ∧
    ((b.hunger ≥ config.HUNGER_SEEK ∧ b.last_food_pos.isSome) →
      ¬(b.thirst ≥ config.THIRST_SEEK ∧ b.last_water_pos.isSome) →
      b.decide_target = b.last_food_pos) ∧
    (¬(b.hunger ≥ config.HUNGER_SEEK ∧ b.last_food_pos.isSome) →
      (b.thirst ≥ config.THIRST_SEEK ∧ b.last_water_pos.isSome) →
      b.decide_target = b.last_water_pos) ∧
    (¬(b.hunger ≥ config.HUNGER_SEEK ∧ b.last_food_pos.isSome) →
      ¬(b.thirst ≥ config.THIRST_SEEK ∧ b.last_water_pos.isSome) →
      b.decide_target = none) := by
  unfold Blob.decide_target
  refine ⟨fun h1 h2 => ⟨fun hgt => ?_, fun hgt => ?_, fun heq => ?_⟩,
    fun h1 h2 => ?_, fun h1 h2 => ?_, fun h1 h2 => ?_⟩ <;>
    simp only [if_pos, if_neg, h1, h2, and_true, true_and] <;>
    split_ifs <;> first | rfl | omega | tauto

/-- Witness for C7: at the fixture blob (hunger 120 > thirst 110, both
conditions active) the food memory is the target. -/
theorem claim7_target_selection_witness : c7blob.decide_target = some (4, 4) :=
  ((claim7_target_selection c7blob).1 (by decide) (by decide)).1 (by decide)

/-- Fixture blob used for the C8 witness population. -/
def c8blob : Blob := { id := 0 }

/-- **C8.** The population cap invariant: `add_blob` appends exactly when
the population is strictly below MAX_BLOBS and otherwise leaves the list
unchanged, and along every run of tick steps (index writes, mate
replacement, `add_blob` insertions, dead filtering, non-list steps)
starting from the initial BLOB_COUNT-agent population, the population
never exceeds MAX_BLOBS. -/
theorem claim8_population_cap :
    (∀ (s : GWState) (b : Blob),
      (s.add_blob b).blobs =
        if s.blobs.length < config.MAX_BLOBS then s.blobs ++ [b] else s.blobs) ∧
    (∀ s0 s : GWState, s0.blobs.length = config.BLOB_COUNT →
      GWReachable s0 s → s.blobs.length ≤ config.MAX_BLOBS) := by
  have hadd : ∀ (s : GWState) (b : Blob),
      (s.add_blob b).blobs =
        if s.blobs.length < config.MAX_BLOBS then s.blobs ++ [b] else s.blobs := by
    intro s b
    unfold GWState.add_blob
    split_ifs <;> rfl
  refine ⟨hadd, fun s0 s h0 hr => ?_⟩
  induction hr with
  | refl =>
    rw [h0]
    norm_num [config.BLOB_COUNT, config.MAX_BLOBS]
  | step _ hstep ih =>
    cases hstep with
    | setElem i b => simp only [List.length_set]; exact ih
    | mapElems f => simp only [List.length_map]; exact ih
    | add b =>
      rw [hadd]
      split_ifs with hlt
      · simpa using hlt
      · exact ih
    | filterDead => exact le_trans (List.length_filter_le _ _) ih
    | admin _ hb => rw [hb]; exact ih

/-- Witness for C8: a concrete initial state with BLOB_COUNT agents is
reachable (trivially) and satisfies the cap. -/
theorem claim8_population_cap_witness :
    (GWState.blobs ⟨0, emptyWorld, List.replicate 75 c8blob, [], emptyPool, 75, []⟩).length ≤
      config.MAX_BLOBS :=
  claim8_population_cap.2 ⟨0, emptyWorld, List.replicate 75 c8blob, [], emptyPool, 75, []⟩
    _ (by simp [config.BLOB_COUNT]) GWReachable.refl

/-- Fixture parents for the C9 witness. -/
def c9a : Blob := { id := 1, x := 10, y := 10, energy := 160, wander_propensity := 1 / 10 }

/-- Second fixture parent for the C9 witness. -/
def c9b : Blob := { id := 2, x := 14, y := 14, energy := 170, wander_propensity := 1 / 5 }

/-- **C9.** `reproduce_with`: both parents lose exactly
REPRO_ENERGY_COST energy, both cooldowns reset to the current tick, and
for every mutation factor in [0.95, 1.05] the offspring
`wander_propensity` is `max 0.01 (parents-average · factor)`, which lies
within ±5% of the parents' average whenever the 0.01 floor does not
bind. -/
theorem claim9_reproduction_effects (b mate : Blob) (tick : ℤ) (oid : ℕ) (f : ℚ)
    (hf1 : 19 / 20 ≤ f) (hf2 : f ≤ 21 / 20) :
    (Blob.reproduce_with b mate tick oid f).1.energy = b.energy - config.REPRO_ENERGY_COST ∧
    (Blob.reproduce_with b mate tick oid f).2.1.energy =
      mate.energy - config.REPRO_ENERGY_COST ∧
    (Blob.reproduce_with b mate tick oid f).1.last_repro_tick = tick ∧
    (Blob.reproduce_with b mate tick oid f).2.1.last_repro_tick = tick ∧
    (Blob.reproduce_with b mate tick oid f).2.2.wander_propensity =
      max (1 / 100) ((b.wander_propensity + mate.wander_propensity) / 2 * f) ∧
    (1 / 100 ≤ (b.wander_propensity + mate.wander_propensity) / 2 * f →
      19 / 20 * ((b.wander_propensity + mate.wander_propensity) / 2) ≤
          (Blob.reproduce_with b mate tick oid f).2.2.wander_propensity ∧
        (Blob.reproduce_with b mate tick oid f).2.2.wander_propensity ≤
          21 / 20 * ((b.wander_propensity + mate.wander_propensity) / 2)) := by
  refine ⟨rfl, rfl, rfl, rfl, rfl, fun hfloor => ?_⟩
  set avg := (b.wander_propensity + mate.wander_propensity) / 2 with havg
  have hw : (Blob.reproduce_with b mate tick oid f).2.2.wander_propensity =
      max (1 / 100) (avg * f) := rfl
  rw [hw, max_eq_right hfloor]
  have havg0 : 0 ≤ avg := by nlinarith
  constructor <;> nlinarith

/-- Witness for C9: concrete parents, tick 100, mutation factor 1. -/
theorem claim9_reproduction_effects_witness :
    (Blob.reproduce_with c9a c9b 100 7 1).1.energy = c9a.energy - config.REPRO_ENERGY_COST ∧
    (Blob.reproduce_with c9a c9b 100 7 1).2.1.energy =
      c9b.energy - config.REPRO_ENERGY_COST ∧
    (Blob.reproduce_with c9a c9b 100 7 1).1.last_repro_tick = 100 ∧
    (Blob.reproduce_with c9a c9b 100 7 1).2.1.last_repro_tick = 100 ∧
    (Blob.reproduce_with c9a c9b 100 7 1).2.2.wander_propensity =
      max (1 / 100) ((c9a.wander_propensity + c9b.wander_propensity) / 2 * 1) ∧
    (1 / 100 ≤ (c9a.wander_propensity + c9b.wander_propensity) / 2 * 1 →
      19 / 20 * ((c9a.wander_propensity + c9b.wander_propensity) / 2) ≤
          (Blob.reproduce_with c9a c9b 100 7 1).2.2.wander_propensity ∧
        (Blob.reproduce_with c9a c9b 100 7 1).2.2.wander_propensity ≤
          21 / 20 * ((c9a.wander_propensity + c9b.wander_propensity) / 2)) :=
  claim9_reproduction_effects c9a c9b 100 7 1 (by norm_num) (by norm_num)

/-- When `get_new_chirp_id` hands out an id, that id is recorded in the
returned pool's `used_chirp_ids`. -/
theorem get_new_chirp_id_mem_used (pool used : List ℕ) (nid : ℕ) (p' : ChirpPool)
    (h : ChirpPool.get_new_chirp_id ⟨pool, used⟩ = (some nid, p')) : nid ∈ p'.used := by
  rw [ChirpPool.get_new_chirp_id] at h
  induction pool generalizing used with
  | nil => simp [getNewChirpIdAux] at h
  | cons x rest ih =>
    rw [getNewChirpIdAux] at h
    split_ifs at h with hx
    · exact ih used h
    · injection h with h1 h2
      injection h1 with h1
      subst h1
      subst h2
      exact List.mem_cons_self _ _

/-- Fixture blob for the C10 witness: empty lexicon, chirp cooldown long
expired. -/
def c10blob : Blob := { id := 3 }

/-- Fixture event queue for the C10 witness: CHIRP_VOLUME chirps already
emitted this tick. -/
def c10events : List PyEvent := List.replicate 50 (PyEvent.chirp 9 1 0 0)

/-- **C10.** In `_broadcast_discovery`, for an agent past its chirp
cooldown with no dominant symbol for the concept, the fresh id is drawn
from the Coordinator pool and the lexicon entry is seeded at weight 0.2
before the CHIRP_VOLUME check; when the volume cap then suppresses the
broadcast, the returned state keeps the consumed pool id and the seeded
lexicon entry while `last_chirp_time`, `last_emit_tick`,
`last_emit_concept` and the event queue are unchanged. -/
theorem claim10_allocation_precedes_volume_gate
    (b : Blob) (concept : String) (current_tick : ℤ) (events : List PyEvent)
    (p p' : ChirpPool) (nid : ℕ)
    (hcool : ¬((current_tick : ℚ) / (config.TICK_RATE_HZ : ℚ) - b.last_chirp_time <
      Blob.chirp_cooldown))
    (hdom : Blob.get_dominant_chirp_for_concept b.lexicon concept = none)
    (halloc : p.get_new_chirp_id = (some nid, p'))
    (hvol : config.CHIRP_VOLUME ≤ chirpEventCount events) :
    b.broadcast_discovery concept current_tick events p =
      ({ b with lexicon := lexSet b.lexicon nid concept (1 / 5) }, events, p') ∧
    nid ∈ p'.used ∧
    (b.broadcast_discovery concept current_tick events p).1.last_chirp_time =
      b.last_chirp_time ∧
    (b.broadcast_discovery concept current_tick events p).1.last_emit_tick =
      b.last_emit_tick ∧
    (b.broadcast_discovery concept current_tick events p).1.last_emit_concept =
      b.last_emit_concept := by
  have hmain : b.broadcast_discovery concept current_tick events p =
      ({ b with lexicon := lexSet b.lexicon nid concept (1 / 5) }, events, p') := by
    unfold Blob.broadcast_discovery
    rw [if_neg hcool, hdom]
    unfold Blob.allocate_new_chirp_id
    rw [halloc]
    dsimp only
    rw [if_neg (Nat.not_lt.mpr hvol)]
  refine ⟨hmain, ?_, ?_, ?_, ?_⟩
  · obtain ⟨pl, us⟩ := p
    exact get_new_chirp_id_mem_used pl us nid p' halloc
  all_goals rw [hmain]

/-- Witness for C10: an agent with an empty lexicon at tick 60, a pool
holding id 7, and a tick queue already at the CHIRP_VOLUME cap. -/
theorem claim10_allocation_witness :
    Blob.broadcast_discovery c10blob "food" 60 c10events ⟨[7], []⟩ =
      ({ c10blob with lexicon := lexSet c10blob.lexicon 7 "food" (1 / 5) },
        c10events, ⟨[], [7]⟩) ∧
    7 ∈ ChirpPool.used ⟨[], [7]⟩ ∧
    (Blob.broadcast_discovery c10blob "food" 60 c10events ⟨[7], []⟩).1.last_chirp_time =
      c10blob.last_chirp_time ∧
    (Blob.broadcast_discovery c10blob "food" 60 c10events ⟨[7], []⟩).1.last_emit_tick =
      c10blob.last_emit_tick ∧
    (Blob.broadcast_discovery c10blob "food" 60 c10events ⟨[7], []⟩).1.last_emit_concept =
      c10blob.last_emit_concept :=
  claim10_allocation_precedes_volume_gate c10blob "food" 60 c10events ⟨[7], []⟩ ⟨[], [7]⟩ 7
    (by norm_num [Blob.chirp_cooldown, config.TICK_RATE_HZ, c10blob])
    (by decide) (by decide) (by decide)

/-- `getD` after `map`: mapping commutes with indexed default lookup. -/
theorem getD_map {α β : Type} (f : α → β) (d : α) (l : List α) (i : ℕ) :
    (l.map f).getD i (f d) = f (l.getD i d) := by
  induction l generalizing i with
  | nil => simp
  | cons x xs ih =>
    cases i with
    | zero => simp
    | succ n => simp only [List.map_cons, List.getD_cons_succ]; exact ih n

/-- A list sum as a sum over its index range. -/
theorem sum_map_eq_sum_range {α : Type} (h : α → ℚ) (d : α) (l : List α) :
    (l.map h).sum = ∑ i ∈ Finset.range l.length, h (l.getD i d) := by
  induction l with
  | nil => simp
  | cons x xs ih =>
    rw [List.map_cons, List.sum_cons, ih, List.length_cons, Finset.sum_range_succ']
    simp only [List.getD_cons_succ, List.getD_cons_zero]
    exact add_comm _ _

/-- The nested `for i / for j in range(i+1, n)` loop pair count: twice the
number of visited pairs plus `n` is `n²`. -/
theorem two_mul_length_offDiagPairs {α : Type} (l : List α) :
    2 * (offDiagPairs l).length + l.length = l.length * l.length := by
  induction l with
  | nil => simp [offDiagPairs]
  | cons x xs ih =>
    rw [show offDiagPairs (x :: xs) = xs.map (fun y => (x, y)) ++ offDiagPairs xs from rfl]
    rw [List.length_append, List.length_map, List.length_cons]
    calc 2 * (xs.length + (offDiagPairs xs).length) + (xs.length + 1)
        = (2 * (offDiagPairs xs).length + xs.length) + (2 * xs.length + 1) := by ring
      _ = xs.length * xs.length + (2 * xs.length + 1) := by rw [ih]
      _ = (xs.length + 1) * (xs.length + 1) := by ring

/-- The nested-loop sum over visited pairs equals the index-pair sum. -/
theorem sum_offDiagPairs {α : Type} (f : α → α → ℚ) (d : α) (l : List α) :
    ((offDiagPairs l).map (fun q => f q.1 q.2)).sum =
      pairSum (fun i j => f (l.getD i d) (l.getD j d)) l.length := by
  induction l with
  | nil => simp [offDiagPairs, pairSum]
  | cons x xs ih =>
    rw [show offDiagPairs (x :: xs) = xs.map (fun y => (x, y)) ++ offDiagPairs xs from rfl]
    rw [List.map_append, List.sum_append, List.map_map, ih]
    unfold pairSum
    rw [List.length_cons, Finset.sum_range_succ']
    simp only [Finset.range_zero, Finset.sum_empty, add_zero]
    have hinner : ∀ j,
        (∑ i ∈ Finset.range (j + 1), f ((x :: xs).getD i d) ((x :: xs).getD (j + 1) d)) =
          (∑ i ∈ Finset.range j, f (xs.getD i d) (xs.getD j d)) + f x (xs.getD j d) := by
      intro j
      rw [Finset.sum_range_succ']
      simp only [List.getD_cons_succ, List.getD_cons_zero]
    rw [Finset.sum_congr rfl (fun j _ => hinner j), Finset.sum_add_distrib]
    rw [show ((fun q : α × α => f q.1 q.2) ∘ fun y => (x, y)) = fun y => f x y from rfl]
    rw [sum_map_eq_sum_range (fun y => f x y) d xs]
    exact add_comm _ _

/-- `pairSum` distributes over pointwise addition. -/
theorem pairSum_add (g h : ℕ → ℕ → ℚ) (n : ℕ) :
    pairSum (fun i j => g i j + h i j) n = pairSum g n + pairSum h n := by
  simp [pairSum, Finset.sum_add_distrib]

/-- `pairSum` commutes with pointwise division by a constant. -/
theorem pairSum_div (g : ℕ → ℕ → ℚ) (c : ℚ) (n : ℕ) :
    pairSum (fun i j => g i j / c) n = pairSum g n / c := by
  simp [pairSum, Finset.sum_div]

/-- **C6 counterexample.** The claim says the metric is computed exactly
on ticks with `tick mod INTERVAL == 0` and returns 1.0 with fewer than 2
live agents; but with zero live agents on such a tick the code returns
`None` ("not computed"), not 1.0. -/
theorem claim6_counterexample :
    update_convergence [] 5000 5000 (3 / 5) ≠ some 1 ∧
    update_convergence [] 5000 5000 (3 / 5) = none := by
  constructor <;> decide

/-- **C6 amended.** The metric is computed exactly on ticks with
`tick mod INTERVAL == 0` **and a nonempty live-agent list** (with zero
live agents it is "not computed"); with exactly one live agent it is 1.0;
the Jaccard similarity of two empty dominant sets is 1.0; and on every
computed nonempty population it equals the spec formula: the mean over
all unordered agent pairs of the average of the food-set and water-set
Jaccard similarities at the dominance threshold. -/
theorem claim6_convergence_metric :
    (∀ (lexicons : List Lexicon) (tick interval : ℤ) (thr : ℚ),
      lexicons = [] ∨ tick % interval ≠ 0 →
      update_convergence lexicons tick interval thr = none) ∧
    calculate_jaccard_similarity ∅ ∅ = 1 ∧
    (∀ (lex : Lexicon) (tick interval : ℤ) (thr : ℚ), tick % interval = 0 →
      update_convergence [lex] tick interval thr = some 1) ∧
    (∀ (lexicons : List Lexicon) (tick interval : ℤ) (thr : ℚ),
      lexicons ≠ [] → tick % interval = 0 →
      update_convergence lexicons tick interval thr =
        some (convergenceSpec lexicons thr)) := by
  have hnone : ∀ (lexicons : List Lexicon) (tick interval : ℤ) (thr : ℚ),
      lexicons = [] ∨ tick % interval ≠ 0 →
      update_convergence lexicons tick interval thr = none := by
    intro lexicons tick interval thr h
    unfold update_convergence
    rw [if_pos]
    rcases h with h | h
    · exact Or.inl (by simp [h])
    · exact Or.inr h
  have hjac : calculate_jaccard_similarity ∅ ∅ = 1 := by
    simp [calculate_jaccard_similarity]
  have hmain : ∀ (lexicons : List Lexicon) (tick interval : ℤ) (thr : ℚ),
      lexicons ≠ [] → tick % interval = 0 →
      update_convergence lexicons tick interval thr =
        some (convergenceSpec lexicons thr) := by
    intro lexs tick interval thr hne hmod
    unfold update_convergence convergenceSpec
    rw [if_neg (by simp [List.isEmpty_iff, hne, hmod])]
    by_cases hlen : lexs.length < 2
    · rw [if_pos hlen, if_pos hlen]
      norm_num
    · rw [if_neg hlen, if_neg hlen]
      dsimp only
      have hn2 : 2 ≤ lexs.length := Nat.le_of_not_lt hlen
      set n := lexs.length with hn
      set foods := lexs.map (fun lex => dominantSet lex "food" thr) with hfoods
      set waters := lexs.map (fun lex => dominantSet lex "water" thr) with hwaters
      have hlenF : foods.length = n := by rw [hfoods, List.length_map]
      have hlenW : waters.length = n := by rw [hwaters, List.length_map]
      have h2pc : 2 * (offDiagPairs foods).length + n = n * n := by
        rw [← hlenF]; exact two_mul_length_offDiagPairs foods
      have hpc_pos : 0 < (offDiagPairs foods).length := by nlinarith
      rw [if_pos hpc_pos, if_pos hpc_pos]
      congr 1
      rw [sum_offDiagPairs calculate_jaccard_similarity (dominantSet [] "food" thr) foods,
        sum_offDiagPairs calculate_jaccard_similarity (dominantSet [] "water" thr) waters,
        hlenF, hlenW]
      have hfd : ∀ i, foods.getD i (dominantSet [] "food" thr) =
          dominantSet (lexs.getD i []) "food" thr := fun i =>
        getD_map (fun lex => dominantSet lex "food" thr) [] lexs i
      have hwd : ∀ i, waters.getD i (dominantSet [] "water" thr) =
          dominantSet (lexs.getD i []) "water" thr := fun i =>
        getD_map (fun lex => dominantSet lex "water" thr) [] lexs i
      simp only [hfd, hwd]
      rw [pairSum_div, pairSum_add]
      set PF := pairSum
        (fun i j => calculate_jaccard_similarity (dominantSet (lexs.getD i []) "food" thr)
          (dominantSet (lexs.getD j []) "food" thr)) n
      set PW := pairSum
        (fun i j => calculate_jaccard_similarity (dominantSet (lexs.getD i []) "water" thr)
          (dominantSet (lexs.getD j []) "water" thr)) n
      have hq : 2 * ((offDiagPairs foods).length : ℚ) + (n : ℚ) = (n : ℚ) * (n : ℚ) := by
        exact_mod_cast congrArg (Nat.cast : ℕ → ℚ) h2pc
      have hnn : (n : ℚ) * ((n : ℚ) - 1) = 2 * ((offDiagPairs foods).length : ℚ) := by
        linear_combination -hq
      rw [hnn, show (2 : ℚ) * ((offDiagPairs foods).length : ℚ) / 2 =
        ((offDiagPairs foods).length : ℚ) from by ring]
      rw [div_add_div_same, div_div, div_div, mul_comm]
  exact ⟨hnone, hjac,
    fun lex tick interval thr hmod => by
      rw [hmain [lex] tick interval thr (by simp) hmod]
      norm_num [convergenceSpec],
    hmain⟩

/-- Witness for C6: a two-agent population with disjoint dominant food
symbols at tick 5000 is computed and matches the spec formula, and the
off-interval tick 1 is not computed. -/
theorem claim6_convergence_metric_witness :
    update_convergence [[(10, [("food", 1)])], [(11, [("food", 1)])]] 5000 5000 (3 / 5) =
      some (convergenceSpec [[(10, [("food", 1)])], [(11, [("food", 1)])]] (3 / 5)) ∧
    update_convergence [[(10, [("food", 1)])]] 1 5000 (3 / 5) = none :=
  ⟨claim6_convergence_metric.2.2.2 [[(10, [("food", 1)])], [(11, [("food", 1)])]] 5000 5000
      (3 / 5) (by simp) (by decide),
    claim6_convergence_metric.1 [[(10, [("food", 1)])]] 1 5000 (3 / 5) (Or.inr (by decide))⟩

end HiveLife
